import Mathlib

/-!
# MinimalWeatherGoApp: a shallow embedding of `main.go`

The program is a small HTTP backend: a static country/city catalog, a weather
gateway that calls a third-party provider and reshapes its answer, and the
handlers that write the HTTP responses.

Conventions of the embedding

* Go `string` values are Lean `String`s (valid UTF-8 text).  Byte slicing
  `s[n:]` is `sliceFrom`, which counts UTF-8 bytes.
* `float64` values are carried as finite IEEE-754 bit patterns; the program
  never computes with them.
* `http.ResponseWriter` is the record `ResponseWriter`: the live header map, the
  committed status with the header snapshot taken when it was committed, and
  the body chunks written so far.
* The outside world (network, JSON decoder, embedded files, build-time key) is
  the parameter `Env`; the effects of a handler besides its response (outbound
  provider requests, server log lines) are threaded through `World`.
-/

namespace WeatherApp

/-! ## Go values -/

/-- Raw bytes (response bodies, embedded files). -/
abbrev Bytes := List Nat

/-- A Go `error`, identified with the text of its `Error()` method. -/
abbrev GoError := String

/-- A `float64` as its IEEE-754 binary64 bit pattern.  Only finite values occur:
`json.Unmarshal` rejects numbers that overflow and JSON has no NaN or infinity,
so the exponent field is never all ones. -/
structure Float64 where
  bits : Nat
  finite : (bits / 2 ^ 52) % 2048 ≠ 2047 := by decide

/-- The zero value of `float64`. -/
def Float64.zero : Float64 := { bits := 0 }

/-- The `float64` value 18.5: sign 0, exponent 1027, fraction `0x2800000000000`. -/
def Float64.of18_5 : Float64 := { bits := 0x4032800000000000 }

/-- Go `s[n:]` on the characters of a string, counting UTF-8 bytes.  `none` is
the run-time panic "slice bounds out of range" (fewer than `n` bytes), or a cut
that falls inside a multi-byte character, whose result is not valid UTF-8 and
has no image in a Lean string. -/
def dropBytes : List Char → Nat → Option (List Char)
  | cs, 0 => some cs
  | [], _ + 1 => none
  | c :: cs, n + 1 =>
    if c.utf8Size ≤ n + 1 then dropBytes cs (n + 1 - c.utf8Size) else none

/-- Go `s[n:]`. -/
def sliceFrom (s : String) (n : Nat) : Option String :=
  (dropBytes s.data n).map String.mk

/-- Go `strings.HasSuffix(s, suffix)`. -/
def hasSuffix (s suffix : String) : Bool :=
  suffix.data.isSuffixOf s.data

/-- The string `s` begins with `p`: the test the request multiplexer applies for
a pattern that ends in a slash. -/
def startsWith (s p : String) : Bool :=
  p.data.isPrefixOf s.data

/-! ## Structures for storing weather data -/

/-- The anonymous struct of `CurrentWeather.Condition`. -/
structure ConditionText where
  Text : String

/-- Go `CurrentWeather`. -/
structure CurrentWeather where
  Condition : ConditionText
  TempC : Float64
  Humidity : Int
  WindKph : Float64
  PressureMb : Float64
  FeelslikeC : Float64
  LastUpdate : String

/-- Go `Location`. -/
structure Location where
  Name : String
  Country : String

/-- Go `WeatherResponse`: the provider schema. -/
structure WeatherResponse where
  Location : Location
  Current : CurrentWeather

/-- Go `WeatherData`: the record returned to clients. -/
structure WeatherData where
  City : String
  Country : String
  Condition : String
  Temperature : Float64
  Humidity : Int
  WindSpeed : Float64
  Pressure : Float64
  Feelslike : Float64
  LastUpdated : String

/-- The zero value of `WeatherData` (`var weatherData WeatherData`). -/
def WeatherData.zero : WeatherData :=
  { City := "", Country := "", Condition := "", Temperature := Float64.zero,
    Humidity := 0, WindSpeed := Float64.zero, Pressure := Float64.zero,
    Feelslike := Float64.zero, LastUpdated := "" }

/-! ## JSON documents written by `encoding/json` -/

/-- A JSON document, as far as the program produces them. -/
inductive Json where
  | str (s : String)
  | int (i : Int)
  | num (f : Float64)
  | arr (items : List Json)
  | obj (fields : List (String × Json))

/-- Encoding of a `[]string`. -/
def Json.ofStrings (xs : List String) : Json :=
  Json.arr (xs.map Json.str)

/-- Encoding of `map[string]string{"error": msg}`. -/
def Json.ofError (msg : String) : Json :=
  Json.obj [("error", Json.str msg)]

/-- Encoding of a `WeatherData`: the fields in declaration order under the names
of their `json` tags. -/
def WeatherData.toJson (d : WeatherData) : Json :=
  Json.obj
    [ ("city", Json.str d.City),
      ("country", Json.str d.Country),
      ("condition", Json.str d.Condition),
      ("temperature", Json.num d.Temperature),
      ("humidity", Json.int d.Humidity),
      ("windSpeed", Json.num d.WindSpeed),
      ("pressure", Json.num d.Pressure),
      ("feelslike", Json.num d.Feelslike),
      ("last_updated", Json.str d.LastUpdated) ]

/-! ## Dictionary with locations -/

/-- Go `locations`: the static catalog, as its key/value entries in source order.
The keys are pairwise distinct. -/
def locations : List (String × List String) :=
  [ ("Poland", ["Warsaw", "Krakow", "Gdansk", "Wroclaw", "Poznan", "Lublin"]),
    ("Germany", ["Berlin", "Munich", "Hamburg", "Frankfurt", "Cologne"]),
    ("France", ["Paris", "Marseille", "Lyon", "Toulouse", "Nice"]),
    ("Great Britain", ["London", "Manchester", "Liverpool", "Birmingham", "Glasgow"]),
    ("Italy", ["Rome", "Milan", "Naples", "Florence", "Venice"]) ]

/-- The key set of the catalog. -/
def countryKeys : List String := locations.map Prod.fst

/-- Go `cities, exists := locations[country]`. -/
def locationsLookup (country : String) : Option (List String) :=
  locations.lookup country

/-! ## `net/http` -/

/-- An `http.Header` restricted to single-valued entries with canonical keys. -/
abbrev Header := List (String × String)

/-- Go `h.Set(key, value)`. -/
def Header.set (h : Header) (key value : String) : Header :=
  if h.any (fun p => p.1 == key) then
    h.map (fun p => if p.1 == key then (key, value) else p)
  else
    h ++ [(key, value)]

/-- Go `h.Get(key)`, with `none` for an absent key. -/
def Header.get (h : Header) (key : String) : Option String :=
  h.lookup key

/-- One write to the response body. -/
inductive Chunk where
  | bytes (b : Bytes)
  | text (s : String)
  | json (v : Json)

/-- The state of an `http.ResponseWriter` during a handler.  `sent` is the
header map as it stood when the status line was committed; later changes to
`header` do not reach the client.  Headers the server adds on its own (date,
length, a sniffed content type when none is set) are not represented. -/
structure ResponseWriter where
  header : Header
  status : Option Nat
  sent : Header
  body : List Chunk

/-- The writer a handler receives. -/
def ResponseWriter.fresh : ResponseWriter :=
  { header := [], status := none, sent := [], body := [] }

/-- Go `w.Header().Set(key, value)`. -/
def ResponseWriter.setHeader (w : ResponseWriter) (key value : String) : ResponseWriter :=
  { w with header := w.header.set key value }

/-- Go `w.WriteHeader(code)`: the first call commits the status and the headers;
a later call is ignored. -/
def ResponseWriter.writeHeader (w : ResponseWriter) (code : Nat) : ResponseWriter :=
  match w.status with
  | some _ => w
  | none => { w with status := some code, sent := w.header }

/-- Go `w.Write(..)`: commits status 200 first when no status was written. -/
def ResponseWriter.write (w : ResponseWriter) (c : Chunk) : ResponseWriter :=
  let w1 := w.writeHeader 200
  { w1 with body := w1.body ++ [c] }

/-- Go `json.NewEncoder(w).Encode(v)`. -/
def ResponseWriter.encode (w : ResponseWriter) (v : Json) : ResponseWriter :=
  w.write (Chunk.json v)

/-- Go `http.Error(w, msg, code)`. -/
def httpError (w : ResponseWriter) (msg : String) (code : Nat) : ResponseWriter :=
  let w1 := w.setHeader "Content-Type" "text/plain; charset=utf-8"
  let w2 := w1.setHeader "X-Content-Type-Options" "nosniff"
  let w3 := w2.writeHeader code
  w3.write (Chunk.text (msg ++ "\n"))

/-- Go `http.NotFound(w, r)`. -/
def httpNotFound (w : ResponseWriter) : ResponseWriter :=
  httpError w "404 page not found" 404

/-- What the client receives once the handler has returned. -/
structure Response where
  status : Nat
  header : Header
  body : List Chunk

/-- The server completes the response when the handler returns: a handler that
wrote nothing gets status 200 with the headers it left. -/
def ResponseWriter.finish (w : ResponseWriter) : Response :=
  match w.status with
  | some code => { status := code, header := w.sent, body := w.body }
  | none => { status := 200, header := w.header, body := w.body }

/-- The parts of `*http.Request` the handlers read: `r.URL.Path` and the parsed
query `r.URL.Query()` as its key/value pairs in order of appearance. -/
structure Request where
  path : String
  query : List (String × String)

/-- Go `r.URL.Query().Get(key)`: the first value of the key, or the empty string. -/
def Request.queryGet (r : Request) (key : String) : String :=
  (r.query.lookup key).getD ""

/-! ## The environment -/

/-- The result of `http.Get` followed by `io.ReadAll(resp.Body)`. -/
inductive HttpOutcome where
  | transportError (err : GoError)
  | response (statusCode : Int) (body : Except GoError Bytes)

/-- Everything the program takes from outside its own source text. -/
structure Env where
  apiKey : String
  queryEscape : String → String
  httpGet : String → HttpOutcome
  unmarshal : Bytes → Except GoError WeatherResponse
  staticFiles : String → Option Bytes

/-- Effects of a handler other than its response. -/
structure World where
  outbound : List String
  log : List String

/-- The world before any request. -/
def World.initial : World := { outbound := [], log := [] }

/-- Go `log.Printf`. -/
def World.logPrintf (σ : World) (line : String) : World :=
  { σ with log := σ.log ++ [line] }

/-! ## The program -/

/-- Go `enableCors`. -/
def enableCors (w : ResponseWriter) : ResponseWriter :=
  let w1 := w.setHeader "Access-Control-Allow-Origin" "*"
  let w2 := w1.setHeader "Access-Control-Allow-Methods" "GET, POST, OPTIONS"
  w2.setHeader "Access-Control-Allow-Headers" "Content-Type"

/-- The provider URL built by `fmt.Sprintf` in `getWeatherFromAPI`. -/
def apiURL (env : Env) (city : String) : String :=
  "http://api.weatherapi.com/v1/current.json?key=" ++ env.apiKey ++ "&q="
    ++ env.queryEscape city ++ "&aqi=no"

/-- Go `getWeatherFromAPI`: returns the pair `(WeatherData, error)`, with `none`
for a nil error, and records the outbound request. -/
def getWeatherFromAPI (env : Env) (city : String) (σ : World) :
    (WeatherData × Option GoError) × World :=
  let weatherData := WeatherData.zero
  let url := apiURL env city
  let σ1 : World := { σ with outbound := σ.outbound ++ [url] }
  match env.httpGet url with
  | HttpOutcome.transportError err => ((weatherData, some err), σ1)
  | HttpOutcome.response statusCode body =>
    if statusCode ≠ 200 then
      ((weatherData, some ("HTTP error! Status: " ++ toString statusCode)), σ1)
    else
      match body with
      | Except.error err => ((weatherData, some err), σ1)
      | Except.ok bodyBytes =>
        match env.unmarshal bodyBytes with
        | Except.error err => ((weatherData, some err), σ1)
        | Except.ok weatherResp =>
          (({ City := weatherResp.Location.Name,
              Country := weatherResp.Location.Country,
              Condition := weatherResp.Current.Condition.Text,
              Temperature := weatherResp.Current.TempC,
              Humidity := weatherResp.Current.Humidity,
              WindSpeed := weatherResp.Current.WindKph,
              Pressure := weatherResp.Current.PressureMb,
              Feelslike := weatherResp.Current.FeelslikeC,
              LastUpdated := weatherResp.Current.LastUpdate }, none), σ1)

/-- Go `serveHome`. -/
def serveHome (env : Env) (w : ResponseWriter) (r : Request) : ResponseWriter :=
  if r.path ≠ "/" then
    httpNotFound w
  else
    match env.staticFiles "static/index.html" with
    | none => httpError w "Failed to read index.html file" 500
    | some content =>
      let w1 := w.setHeader "Content-Type" "text/html; charset=utf-8"
      w1.write (Chunk.bytes content)

/-- Go `serveStatic`; `none` is the panic of `r.URL.Path[1:]` on an empty path. -/
def serveStatic (env : Env) (w : ResponseWriter) (r : Request) : Option ResponseWriter :=
  match sliceFrom r.path 1 with
  | none => none
  | some path =>
    match env.staticFiles path with
    | none => some (httpNotFound w)
    | some content =>
      let w1 :=
        if hasSuffix path ".css" then w.setHeader "Content-Type" "text/css"
        else if hasSuffix path ".js" then w.setHeader "Content-Type" "application/javascript"
        else w
      some (w1.write (Chunk.bytes content))

/-- Go `getCountries`.  `rangeOrder` is the sequence of entries that
`for country := range locations` yields on this call; the runtime may pick any
order of the map's entries. -/
def getCountries (rangeOrder : List (String × List String)) (w : ResponseWriter)
    (_r : Request) : ResponseWriter :=
  let w1 := enableCors w
  let countries := rangeOrder.foldl (fun countries entry => countries ++ [entry.1]) []
  let w2 := w1.setHeader "Content-Type" "application/json"
  w2.encode (Json.ofStrings countries)

/-- Go `getCities`; `none` is the panic of the slice expression when the path is
shorter than the route pattern. -/
def getCities (w : ResponseWriter) (r : Request) : Option ResponseWriter :=
  let w1 := enableCors w
  match sliceFrom r.path "/api/cities/".utf8ByteSize with
  | none => none
  | some country =>
    let w2 := w1.setHeader "Content-Type" "application/json"
    match locationsLookup country with
    | none =>
      let w3 := w2.writeHeader 404
      some (w3.encode (Json.ofError "Country not found"))
    | some cities => some (w2.encode (Json.ofStrings cities))

/-- Go `getWeather`. -/
def getWeather (env : Env) (w : ResponseWriter) (r : Request) (σ : World) :
    ResponseWriter × World :=
  let w1 := enableCors w
  let city := r.queryGet "city"
  let country := r.queryGet "country"
  if city = "" ∨ country = "" then
    let w2 := w1.writeHeader 400
    (w2.encode (Json.ofError "City and country parameters are required"), σ)
  else
    match getWeatherFromAPI env city σ with
    | ((_, some err), σ1) =>
      let σ2 := σ1.logPrintf ("Error while fetching weather data: " ++ err)
      let w2 := w1.writeHeader 500
      (w2.encode (Json.ofError "Error while fetching weather data"), σ2)
    | ((weatherData, none), σ1) =>
      let w2 := w1.setHeader "Content-Type" "application/json"
      (w2.encode weatherData.toJson, σ1)

/-- Where the default request multiplexer sends a canonical path, given the four
registrations of `main`: `/`, `/api/countries`, `/api/cities/`, `/api/weather`.
A pattern without a trailing slash matches that path only; a pattern with one
matches every path below it, the longest pattern winning; `/api/cities` is
redirected to the registered `/api/cities/`. -/
inductive Route where
  | serveHome
  | getCountries
  | getCities
  | getWeather
  | redirect (location : String)
  deriving DecidableEq

/-- The routes configured in `main`. -/
def route (path : String) : Route :=
  if path = "/api/countries" then Route.getCountries
  else if path = "/api/weather" then Route.getWeather
  else if startsWith path "/api/cities/" then Route.getCities
  else if path = "/api/cities" then Route.redirect "/api/cities/"
  else Route.serveHome

/-- The outcome of one request at the server. -/
inductive Served where
  | response (resp : Response)
  | redirected (location : String)
  | panicked

/-- The server of `main`: dispatch by `route`, run the handler on a fresh
writer, complete the response. -/
def serve (env : Env) (rangeOrder : List (String × List String)) (r : Request)
    (σ : World) : Served × World :=
  match route r.path with
  | Route.serveHome => (Served.response (serveHome env ResponseWriter.fresh r).finish, σ)
  | Route.getCountries =>
    (Served.response (getCountries rangeOrder ResponseWriter.fresh r).finish, σ)
  | Route.getCities =>
    match getCities ResponseWriter.fresh r with
    | some w => (Served.response w.finish, σ)
    | none => (Served.panicked, σ)
  | Route.getWeather =>
    let out := getWeather env ResponseWriter.fresh r σ
    (Served.response out.1.finish, out.2)
  | Route.redirect location => (Served.redirected location, σ)

/-- The three CORS headers are present with the values `enableCors` gives them. -/
def hasCors (h : Header) : Prop :=
  h.get "Access-Control-Allow-Origin" = some "*" ∧
  h.get "Access-Control-Allow-Methods" = some "GET, POST, OPTIONS" ∧
  h.get "Access-Control-Allow-Headers" = some "Content-Type"

/-- The header map left by `enableCors` on a fresh writer. -/
def corsHeader : Header :=
  [ ("Access-Control-Allow-Origin", "*"),
    ("Access-Control-Allow-Methods", "GET, POST, OPTIONS"),
    ("Access-Control-Allow-Headers", "Content-Type") ]

/-- The query parameter is missing, or its first value is empty. -/
def missingOrEmpty (r : Request) (key : String) : Prop :=
  r.query.lookup key = none ∨ r.query.lookup key = some ""

/-- The provider call for this city fails: in transport, by a status other than
200, while reading the body, or in decoding. -/
def providerFails (env : Env) (city : String) : Prop :=
  match env.httpGet (apiURL env city) with
  | HttpOutcome.transportError _ => True
  | HttpOutcome.response statusCode body =>
    statusCode ≠ 200 ∨
      match body with
      | Except.error _ => True
      | Except.ok bodyBytes =>
        match env.unmarshal bodyBytes with
        | Except.error _ => True
        | Except.ok _ => False

/-! ## A concrete environment

A provider that knows one city, used to run the program on actual inputs. -/

/-- The bytes of an ASCII text. -/
def asciiBytes (s : String) : Bytes := s.data.map Char.toNat

/-- The provider's answer for Paris, as sent on the wire. -/
def parisBody : Bytes :=
  asciiBytes ("\x7b\"location\":\x7b\"name\":\"Paris\",\"country\":\"France\"\x7d,"
    ++ "\"current\":\x7b\"last_updated\":\"2024-05-01 12:00\",\"temp_c\":18.5,"
    ++ "\"condition\":\x7b\"text\":\"Sunny\"\x7d,\"wind_kph\":12.0,"
    ++ "\"pressure_mb\":1015.0,\"humidity\":60,\"feelslike_c\":18.5\x7d\x7d")

/-- The decoded form of `parisBody`. -/
def parisResponse : WeatherResponse :=
  { Location := { Name := "Paris", Country := "France" },
    Current :=
      { Condition := { Text := "Sunny" },
        TempC := Float64.of18_5,
        Humidity := 60,
        WindKph := { bits := 0x4028000000000000 },
        PressureMb := { bits := 0x408fb80000000000 },
        FeelslikeC := Float64.of18_5,
        LastUpdate := "2024-05-01 12:00" } }

/-- The only URL the test provider answers with a weather report. -/
def parisURL : String :=
  "http://api.weatherapi.com/v1/current.json?key=testkey&q=Paris&aqi=no"

/-- An environment whose provider answers the Paris query with `parisBody`,
answers a query for `Atlantis` with status 400, and is unreachable otherwise.
No character of the city names it is asked about needs escaping. -/
def parisEnv : Env :=
  { apiKey := "testkey",
    queryEscape := fun s => s,
    httpGet := fun url =>
      if url = parisURL then HttpOutcome.response 200 (Except.ok parisBody)
      else if url = "http://api.weatherapi.com/v1/current.json?key=testkey&q=Atlantis&aqi=no" then
        HttpOutcome.response 400 (Except.ok [])
      else HttpOutcome.transportError "dial tcp: connection refused",
    unmarshal := fun b =>
      if b = parisBody then Except.ok parisResponse
      else Except.error "unexpected end of JSON input",
    staticFiles := fun name =>
      if name = "static/index.html" then some (asciiBytes "<html></html>")
      else if name = "static/app.js" then some (asciiBytes "void 0;")
      else none }

/-- A weather request with the two query parameters given. -/
def weatherRequest (city country : String) : Request :=
  { path := "/api/weather", query := [("city", city), ("country", country)] }


/-- The response of `getWeather` to a request without a usable parameter. -/
def badRequestResponse : Response :=
  { status := 400, header := corsHeader,
    body := [Chunk.json (Json.ofError "City and country parameters are required")] }

/-- The response of `getWeather` when the gateway returns an error. -/
def gatewayErrorResponse : Response :=
  { status := 500, header := corsHeader,
    body := [Chunk.json (Json.ofError "Error while fetching weather data")] }

/-! ## Auxiliary facts -/

theorem sliceFrom_cities (s : String) :
    sliceFrom ("/api/cities/" ++ s) "/api/cities/".utf8ByteSize = some s := by
  have h : ("/api/cities/" ++ s).data = "/api/cities/".data ++ s.data := String.data_append _ _
  have hp : "/api/cities/".data = ['/', 'a', 'p', 'i', '/', 'c', 'i', 't', 'i', 'e', 's', '/'] := rfl
  have hn : "/api/cities/".utf8ByteSize = 12 := by decide
  have hsz : ∀ c ∈ ['/', 'a', 'p', 'i', 'c', 't', 'e', 's'], Char.utf8Size c = 1 := by decide
  unfold sliceFrom
  rw [h, hp, hn]
  simp [dropBytes, hsz]

theorem locationsLookup_of_mem (country : String) (cities : List String)
    (h : (country, cities) ∈ locations) : locationsLookup country = some cities := by
  simp only [locations, List.mem_cons, Prod.mk.injEq, List.mem_nil_iff, or_false] at h
  rcases h with ⟨rfl, rfl⟩ | ⟨rfl, rfl⟩ | ⟨rfl, rfl⟩ | ⟨rfl, rfl⟩ | ⟨rfl, rfl⟩ <;> decide

theorem locationsLookup_of_not_key (s : String) (h : s ∉ countryKeys) :
    locationsLookup s = none := by
  unfold locationsLookup
  rw [List.lookup_eq_none_iff]
  intro p hp
  have hne : s ≠ p.1 := by
    intro hs
    apply h
    rw [hs]
    exact List.mem_map_of_mem Prod.fst hp
  simpa using hne

theorem rangeLoop_eq_map (entries : List (String × List String)) (acc : List String) :
    entries.foldl (fun countries entry => countries ++ [entry.1]) acc
      = acc ++ entries.map Prod.fst := by
  induction entries generalizing acc with
  | nil => simp
  | cons e es ih => simp [ih]

theorem enableCors_fresh :
    enableCors ResponseWriter.fresh = { ResponseWriter.fresh with header := corsHeader } := rfl

theorem hasCors_corsHeader : hasCors corsHeader := by
  refine ⟨?_, ?_, ?_⟩ <;> decide

theorem hasCors_jsonHeader :
    hasCors (Header.set corsHeader "Content-Type" "application/json") := by
  refine ⟨?_, ?_, ?_⟩ <;> decide

/-! ## The weather gateway -/

/-- C1: when the provider answers with status 200 and a body that decodes into
the provider schema, `getWeatherFromAPI` returns a nil error and a record whose
nine fields are copies of the decoded provider fields. -/
theorem getWeatherFromAPI_copies_fields (env : Env) (city : String) (σ : World)
    (body : Bytes) (weatherResp : WeatherResponse)
    (hget : env.httpGet (apiURL env city) = HttpOutcome.response 200 (Except.ok body))
    (hdec : env.unmarshal body = Except.ok weatherResp) :
    ∃ d : WeatherData, (getWeatherFromAPI env city σ).1 = (d, none) ∧
      d.City = weatherResp.Location.Name ∧
      d.Country = weatherResp.Location.Country ∧
      d.Condition = weatherResp.Current.Condition.Text ∧
      d.Temperature = weatherResp.Current.TempC ∧
      d.Humidity = weatherResp.Current.Humidity ∧
      d.WindSpeed = weatherResp.Current.WindKph ∧
      d.Pressure = weatherResp.Current.PressureMb ∧
      d.Feelslike = weatherResp.Current.FeelslikeC ∧
      d.LastUpdated = weatherResp.Current.LastUpdate := by
  simp only [getWeatherFromAPI, hget, hdec]
  exact ⟨_, rfl, rfl, rfl, rfl, rfl, rfl, rfl, rfl, rfl, rfl⟩

/-- C1 at the Paris response: city "Paris", temperature 18.5 and humidity 60
come back unchanged. -/
theorem getWeatherFromAPI_copies_fields_paris :
    ∃ d : WeatherData, (getWeatherFromAPI parisEnv "Paris" World.initial).1 = (d, none) ∧
      d.City = "Paris" ∧ d.Temperature = Float64.of18_5 ∧ d.Humidity = 60 := by
  obtain ⟨d, hd, hcity, _, _, htemp, hhum, _⟩ :=
    getWeatherFromAPI_copies_fields parisEnv "Paris" World.initial parisBody parisResponse
      rfl (by simp [parisEnv])
  exact ⟨d, hd, hcity, htemp, hhum⟩

/-- When the provider call fails, `getWeatherFromAPI` returns a non-nil error. -/
theorem getWeatherFromAPI_error_of_fails (env : Env) (city : String) (σ : World)
    (hfail : providerFails env city) :
    ∃ err, getWeatherFromAPI env city σ =
      ((WeatherData.zero, some err), { σ with outbound := σ.outbound ++ [apiURL env city] }) := by
  unfold providerFails at hfail
  simp only [getWeatherFromAPI]
  cases hget : env.httpGet (apiURL env city) with
  | transportError err => exact ⟨err, rfl⟩
  | response statusCode body =>
    rw [hget] at hfail
    by_cases hs : statusCode = 200
    · subst hs
      cases body with
      | error err => exact ⟨err, rfl⟩
      | ok bodyBytes =>
        cases hdec : env.unmarshal bodyBytes with
        | error err => exact ⟨err, by simp [hdec]⟩
        | ok weatherResp => simp [hdec] at hfail
    · exact ⟨"HTTP error! Status: " ++ toString statusCode, by simp [hs]⟩

/-- The outbound request log after `getWeatherFromAPI`: one more request, to
the URL built from the key and the escaped city. -/
theorem getWeatherFromAPI_outbound (env : Env) (city : String) (σ : World) :
    (getWeatherFromAPI env city σ).2.outbound = σ.outbound ++ [apiURL env city] := by
  simp only [getWeatherFromAPI]
  cases hget : env.httpGet (apiURL env city) with
  | transportError err => rfl
  | response statusCode body =>
    by_cases hs : statusCode = 200
    · subst hs
      cases body with
      | error err => rfl
      | ok bodyBytes =>
        cases hdec : env.unmarshal bodyBytes with
        | error err => simp [hdec]
        | ok weatherResp => simp [hdec]
    · simp [hs]

/-! ## The weather handler -/

theorem queryGet_eq_empty_iff (r : Request) (key : String) :
    r.queryGet key = "" ↔ missingOrEmpty r key := by
  unfold Request.queryGet missingOrEmpty
  cases h : r.query.lookup key with
  | none => simp
  | some v => simp

theorem getWeather_missing (env : Env) (r : Request) (σ : World)
    (h : r.queryGet "city" = "" ∨ r.queryGet "country" = "") :
    getWeather env ResponseWriter.fresh r σ =
      (((enableCors ResponseWriter.fresh).writeHeader 400).encode
        (Json.ofError "City and country parameters are required"), σ) := by
  unfold getWeather
  simp only [if_pos h]

theorem getWeather_missing_finish (env : Env) (r : Request) (σ : World)
    (h : r.queryGet "city" = "" ∨ r.queryGet "country" = "") :
    (getWeather env ResponseWriter.fresh r σ).1.finish = badRequestResponse := by
  rw [getWeather_missing env r σ h]
  rfl

theorem getWeather_present (env : Env) (r : Request) (σ : World)
    (h : ¬ (r.queryGet "city" = "" ∨ r.queryGet "country" = "")) :
    getWeather env ResponseWriter.fresh r σ =
      match getWeatherFromAPI env (r.queryGet "city") σ with
      | ((_, some err), σ1) =>
        ((((enableCors ResponseWriter.fresh).writeHeader 500).encode
          (Json.ofError "Error while fetching weather data")),
          σ1.logPrintf ("Error while fetching weather data: " ++ err))
      | ((weatherData, none), σ1) =>
        (((enableCors ResponseWriter.fresh).setHeader "Content-Type" "application/json").encode
          weatherData.toJson, σ1) := by
  unfold getWeather
  simp only [if_neg h]

/-- C2: with both parameters non-empty, whenever the provider call fails (in
transport, by a status other than 200, while reading the body, or in decoding)
`getWeather` answers with status 500 and the single-field object
`error = "Error while fetching weather data"`; the response is one fixed value,
the same for every cause. -/
theorem getWeather_provider_failure (env : Env) (r : Request) (σ : World)
    (hcity : r.queryGet "city" ≠ "") (hcountry : r.queryGet "country" ≠ "")
    (hfail : providerFails env (r.queryGet "city")) :
    (getWeather env ResponseWriter.fresh r σ).1.finish = gatewayErrorResponse ∧
      gatewayErrorResponse.status = 500 ∧
      gatewayErrorResponse.body =
        [Chunk.json (Json.obj [("error", Json.str "Error while fetching weather data")])] := by
  refine ⟨?_, rfl, rfl⟩
  have hpresent : ¬ (r.queryGet "city" = "" ∨ r.queryGet "country" = "") := by
    rintro (h | h)
    · exact hcity h
    · exact hcountry h
  obtain ⟨err, herr⟩ := getWeatherFromAPI_error_of_fails env (r.queryGet "city") σ hfail
  rw [getWeather_present env r σ hpresent, herr]
  rfl

/-- C2 at a provider that answers status 400 for an unknown city. -/
theorem getWeather_provider_failure_atlantis :
    (getWeather parisEnv ResponseWriter.fresh (weatherRequest "Atlantis" "Greece")
        World.initial).1.finish = gatewayErrorResponse ∧
      gatewayErrorResponse.status = 500 ∧
      gatewayErrorResponse.body =
        [Chunk.json (Json.obj [("error", Json.str "Error while fetching weather data")])] :=
  getWeather_provider_failure parisEnv (weatherRequest "Atlantis" "Greece") World.initial
    (by decide) (by decide)
    (by simp [providerFails, parisEnv, apiURL, parisURL, weatherRequest, Request.queryGet])

/-- C3: `getWeather` answers with status 400 and the object
`error = "City and country parameters are required"` exactly when the city or
the country parameter is missing or empty, and then it makes no outbound
request and leaves the world as it was. -/
theorem getWeather_bad_request_iff (env : Env) (r : Request) (σ : World) :
    (((getWeather env ResponseWriter.fresh r σ).1.finish.status = 400 ∧
        (getWeather env ResponseWriter.fresh r σ).1.finish.body =
          [Chunk.json (Json.obj [("error", Json.str "City and country parameters are required")])])
      ↔ (missingOrEmpty r "city" ∨ missingOrEmpty r "country")) ∧
    ((missingOrEmpty r "city" ∨ missingOrEmpty r "country") →
      (getWeather env ResponseWriter.fresh r σ).2 = σ) := by
  rw [← queryGet_eq_empty_iff, ← queryGet_eq_empty_iff]
  by_cases h : r.queryGet "city" = "" ∨ r.queryGet "country" = ""
  · refine ⟨⟨fun _ => h, fun _ => ?_⟩, fun _ => ?_⟩
    · rw [getWeather_missing_finish env r σ h]
      exact ⟨rfl, rfl⟩
    · rw [getWeather_missing env r σ h]
  · refine ⟨⟨fun hs => ?_, fun hm => absurd hm h⟩, fun hm => absurd hm h⟩
    exfalso
    have hstatus := hs.1
    rw [getWeather_present env r σ h] at hstatus
    rcases hres : getWeatherFromAPI env (r.queryGet "city") σ with ⟨⟨d, err⟩, σ1⟩
    rw [hres] at hstatus
    cases err with
    | none =>
      have h200 : (200 : Nat) = 400 := hstatus
      exact absurd h200 (by decide)
    | some e =>
      have h500 : (500 : Nat) = 400 := hstatus
      exact absurd h500 (by decide)

/-- C3 at a request that carries a city and no country. -/
theorem getWeather_bad_request_iff_city_only :
    (getWeather parisEnv ResponseWriter.fresh
        { path := "/api/weather", query := [("city", "Paris")] } World.initial).1.finish.status
      = 400 ∧
    (getWeather parisEnv ResponseWriter.fresh
        { path := "/api/weather", query := [("city", "Paris")] } World.initial).2
      = World.initial := by
  have h := getWeather_bad_request_iff parisEnv
    { path := "/api/weather", query := [("city", "Paris")] } World.initial
  have hmiss : missingOrEmpty { path := "/api/weather", query := [("city", "Paris")] } "city" ∨
      missingOrEmpty { path := "/api/weather", query := [("city", "Paris")] } "country" :=
    Or.inr (Or.inl (by decide))
  exact ⟨(h.1.2 hmiss).1, h.2 hmiss⟩

/-- C10: the country parameter only takes part in the emptiness check.  Two
requests with the same city and any two non-empty countries make `getWeather`
return the same writer (status, headers, body) and the same world (outbound
requests, log); the outbound request, made when the city is non-empty, goes to
the URL built from the key and the escaped city. -/
theorem getWeather_ignores_country (env : Env) (σ : World) (r1 r2 : Request)
    (hcity : r1.queryGet "city" = r2.queryGet "city")
    (h1 : r1.queryGet "country" ≠ "") (h2 : r2.queryGet "country" ≠ "") :
    getWeather env ResponseWriter.fresh r1 σ = getWeather env ResponseWriter.fresh r2 σ ∧
      (getWeather env ResponseWriter.fresh r1 σ).2.outbound =
        if r1.queryGet "city" = "" then σ.outbound
        else σ.outbound ++ [apiURL env (r1.queryGet "city")] := by
  by_cases hc : r1.queryGet "city" = ""
  · have hc2 : r2.queryGet "city" = "" := hcity ▸ hc
    rw [getWeather_missing env r1 σ (Or.inl hc), getWeather_missing env r2 σ (Or.inl hc2)]
    simp [hc]
  · have hc2 : r2.queryGet "city" ≠ "" := hcity ▸ hc
    have hp1 : ¬ (r1.queryGet "city" = "" ∨ r1.queryGet "country" = "") := by
      rintro (h | h)
      · exact hc h
      · exact h1 h
    have hp2 : ¬ (r2.queryGet "city" = "" ∨ r2.queryGet "country" = "") := by
      rintro (h | h)
      · exact hc2 h
      · exact h2 h
    rw [getWeather_present env r1 σ hp1, getWeather_present env r2 σ hp2, ← hcity, if_neg hc]
    refine ⟨rfl, ?_⟩
    have hout := getWeatherFromAPI_outbound env (r1.queryGet "city") σ
    rcases hres : getWeatherFromAPI env (r1.queryGet "city") σ with ⟨⟨d, err⟩, σ1⟩
    rw [hres] at hout
    cases err with
    | none => exact hout
    | some e => exact hout

/-- C10 at Paris with the countries France and Italy. -/
theorem getWeather_ignores_country_paris :
    getWeather parisEnv ResponseWriter.fresh (weatherRequest "Paris" "France") World.initial
        = getWeather parisEnv ResponseWriter.fresh (weatherRequest "Paris" "Italy") World.initial ∧
      (getWeather parisEnv ResponseWriter.fresh (weatherRequest "Paris" "France")
          World.initial).2.outbound = [parisURL] := by
  have h := getWeather_ignores_country parisEnv World.initial (weatherRequest "Paris" "France")
    (weatherRequest "Paris" "Italy") rfl (by decide) (by decide)
  refine ⟨h.1, ?_⟩
  rw [h.2]
  rfl

/-! ## The catalog handlers -/

/-- Every path the multiplexer sends to `getCities` is the route pattern
followed by some string. -/
theorem route_getCities_path (path : String) (h : route path = Route.getCities) :
    ∃ s : String, path = "/api/cities/" ++ s := by
  unfold route at h
  split_ifs at h with h1 h2 h3
  unfold startsWith at h3
  rw [ List.isPrefixOf_iff_prefix] at h3
  obtain ⟨t, ht⟩ := h3
  refine ⟨String.mk t, ?_⟩
  apply String.ext
  rw [String.data_append, ← ht]

theorem getCities_at (s : String) (query : List (String × String)) :
    getCities ResponseWriter.fresh { path := "/api/cities/" ++ s, query := query } =
      some (match locationsLookup s with
        | none =>
          (((enableCors ResponseWriter.fresh).setHeader "Content-Type"
            "application/json").writeHeader 404).encode (Json.ofError "Country not found")
        | some cities =>
          ((enableCors ResponseWriter.fresh).setHeader "Content-Type" "application/json").encode
            (Json.ofStrings cities)) := by
  simp only [getCities, sliceFrom_cities]
  cases locationsLookup s <;> rfl

theorem jsonHeader_content_type :
    (Header.set corsHeader "Content-Type" "application/json").get "Content-Type"
      = some "application/json" := by decide

theorem corsHeader_content_type : Header.get corsHeader "Content-Type" = none := by decide

/-- C4: for every entry of the catalog, `getCities` on the path `/api/cities/`
followed by the entry's country answers with status 200 and a body that is the
JSON array of the entry's cities, same elements in the same order. -/
theorem getCities_known_country (country : String) (cities : List String)
    (query : List (String × String)) (h : (country, cities) ∈ locations) :
    ∃ w : ResponseWriter,
      getCities ResponseWriter.fresh { path := "/api/cities/" ++ country, query := query }
        = some w ∧
      w.finish.status = 200 ∧
      w.finish.body = [Chunk.json (Json.arr (cities.map Json.str))] := by
  refine ⟨_, getCities_at country query, ?_⟩
  rw [locationsLookup_of_mem country cities h]
  exact ⟨rfl, rfl⟩

/-- C4 at France: the body lists Paris, Marseille, Lyon, Toulouse, Nice. -/
theorem getCities_known_country_france :
    ∃ w : ResponseWriter,
      getCities ResponseWriter.fresh { path := "/api/cities/" ++ "France", query := [] }
        = some w ∧
      w.finish.status = 200 ∧
      w.finish.body = [Chunk.json (Json.arr
        (["Paris", "Marseille", "Lyon", "Toulouse", "Nice"].map Json.str))] :=
  getCities_known_country "France" ["Paris", "Marseille", "Lyon", "Toulouse", "Nice"] []
    (by decide)

/-- C5: for every string that is not a key of the catalog, `getCities` on the
path `/api/cities/` followed by that string answers with status 404 and a body
that is exactly the object `error = "Country not found"`: no city list is
written. -/
theorem getCities_unknown_country (s : String) (query : List (String × String))
    (h : s ∉ countryKeys) :
    ∃ w : ResponseWriter,
      getCities ResponseWriter.fresh { path := "/api/cities/" ++ s, query := query }
        = some w ∧
      w.finish.status = 404 ∧
      w.finish.body = [Chunk.json (Json.obj [("error", Json.str "Country not found")])] := by
  refine ⟨_, getCities_at s query, ?_⟩
  rw [locationsLookup_of_not_key s h]
  exact ⟨rfl, rfl⟩

/-- C5 at the empty string and at a lower-case variant of a real key. -/
theorem getCities_unknown_country_examples :
    (∃ w : ResponseWriter,
        getCities ResponseWriter.fresh { path := "/api/cities/" ++ "", query := [] } = some w ∧
        w.finish.status = 404 ∧
        w.finish.body = [Chunk.json (Json.obj [("error", Json.str "Country not found")])]) ∧
    (∃ w : ResponseWriter,
        getCities ResponseWriter.fresh { path := "/api/cities/" ++ "france", query := [] }
          = some w ∧
        w.finish.status = 404 ∧
        w.finish.body = [Chunk.json (Json.obj [("error", Json.str "Country not found")])]) :=
  ⟨getCities_unknown_country "" [] (by decide),
    getCities_unknown_country "france" [] (by decide)⟩

/-- C9: whatever order the runtime iterates the catalog in, `getCountries`
answers with status 200 and the JSON array of a list that is a permutation of
the five catalog keys: length 5, no duplicates. -/
theorem getCountries_permutation (rangeOrder : List (String × List String)) (r : Request)
    (h : rangeOrder.Perm locations) :
    ∃ countries : List String,
      (getCountries rangeOrder ResponseWriter.fresh r).finish.status = 200 ∧
      (getCountries rangeOrder ResponseWriter.fresh r).finish.body
        = [Chunk.json (Json.arr (countries.map Json.str))] ∧
      countries.Perm ["Poland", "Germany", "France", "Great Britain", "Italy"] ∧
      countries.length = 5 ∧
      countries.Nodup := by
  have hperm : (rangeOrder.map Prod.fst).Perm
      ["Poland", "Germany", "France", "Great Britain", "Italy"] := h.map Prod.fst
  refine ⟨rangeOrder.map Prod.fst, rfl, ?_, hperm, ?_, ?_⟩
  · simp only [getCountries, rangeLoop_eq_map, List.nil_append]
    rfl
  · rw [hperm.length_eq]
    rfl
  · rw [hperm.nodup_iff]
    decide

/-- C9 at the iteration order that reverses the source order. -/
theorem getCountries_permutation_reversed :
    ∃ countries : List String,
      (getCountries locations.reverse ResponseWriter.fresh
        { path := "/api/countries", query := [] }).finish.status = 200 ∧
      (getCountries locations.reverse ResponseWriter.fresh
        { path := "/api/countries", query := [] }).finish.body
        = [Chunk.json (Json.arr (countries.map Json.str))] ∧
      countries.Perm ["Poland", "Germany", "France", "Great Britain", "Italy"] ∧
      countries.length = 5 ∧
      countries.Nodup :=
  getCountries_permutation locations.reverse { path := "/api/countries", query := [] }
    (List.reverse_perm locations)

/-! ## Response headers -/

/-- C6: on every branch of `getCountries`, `getCities` and `getWeather` the
headers committed with the status line carry the three CORS headers with the
values of `enableCors`. -/
theorem api_responses_carry_cors (env : Env) (rangeOrder : List (String × List String))
    (r : Request) (σ : World) (s : String) :
    hasCors (getCountries rangeOrder ResponseWriter.fresh r).finish.header ∧
    hasCors (getWeather env ResponseWriter.fresh r σ).1.finish.header ∧
    ∃ w : ResponseWriter,
      getCities ResponseWriter.fresh { path := "/api/cities/" ++ s, query := r.query } = some w ∧
      hasCors w.finish.header := by
  refine ⟨hasCors_jsonHeader, ?_, ?_⟩
  · by_cases h : r.queryGet "city" = "" ∨ r.queryGet "country" = ""
    · rw [getWeather_missing env r σ h]
      exact hasCors_corsHeader
    · rw [getWeather_present env r σ h]
      rcases getWeatherFromAPI env (r.queryGet "city") σ with ⟨⟨d, err⟩, σ1⟩
      cases err with
      | none => exact hasCors_jsonHeader
      | some e => exact hasCors_corsHeader
  · refine ⟨_, getCities_at s r.query, ?_⟩
    cases locationsLookup s with
    | none => exact hasCors_jsonHeader
    | some cities => exact hasCors_jsonHeader

/-- C7 fails on the error branches of `getWeather`: a weather request without
parameters is answered with status 400 and no `Content-Type` among the
committed headers, whatever the environment. -/
theorem getWeather_bad_request_no_content_type (env : Env) (σ : World) :
    (getWeather env ResponseWriter.fresh { path := "/api/weather", query := [] } σ).1.finish.status
      = 400 ∧
    (getWeather env ResponseWriter.fresh { path := "/api/weather", query := [] }
      σ).1.finish.header.get "Content-Type" = none := by
  have hmiss : ({ path := "/api/weather", query := [] } : Request).queryGet "city" = "" ∨
      ({ path := "/api/weather", query := [] } : Request).queryGet "country" = "" := Or.inl rfl
  rw [getWeather_missing env _ σ hmiss]
  exact ⟨rfl, corsHeader_content_type⟩

/-- The same omission on the 500 branch. -/
theorem getWeather_gateway_error_no_content_type :
    gatewayErrorResponse.header.get "Content-Type" = none := by decide

/-- The sibling handlers do set the header before they commit the status. -/
theorem catalog_handlers_content_type (rangeOrder : List (String × List String))
    (r : Request) (s : String) :
    (getCountries rangeOrder ResponseWriter.fresh r).finish.header.get "Content-Type"
      = some "application/json" ∧
    ∃ w : ResponseWriter,
      getCities ResponseWriter.fresh { path := "/api/cities/" ++ s, query := r.query } = some w ∧
      w.finish.header.get "Content-Type" = some "application/json" := by
  refine ⟨jsonHeader_content_type, _, getCities_at s r.query, ?_⟩
  cases locationsLookup s with
  | none => exact jsonHeader_content_type
  | some cities => exact jsonHeader_content_type

/-! ## Static files -/

/-- C8 fails under the routes of `main`: `serveStatic` is never registered, so
the path `/static/app.js` falls to `serveHome`, which answers 404 with the
plain-text body of `http.NotFound`, whether or not the asset is embedded. -/
theorem serve_static_asset_not_found (env : Env) (rangeOrder : List (String × List String))
    (query : List (String × String)) (σ : World) :
    serve env rangeOrder { path := "/static/app.js", query := query } σ =
      (Served.response
        { status := 404,
          header := [("Content-Type", "text/plain; charset=utf-8"),
            ("X-Content-Type-Options", "nosniff")],
          body := [Chunk.text "404 page not found\n"] }, σ) := rfl

/-- What `serveStatic` would answer for an embedded `.js` asset if it were
registered. -/
theorem serveStatic_js :
    ∃ w1 : ResponseWriter,
      serveStatic parisEnv ResponseWriter.fresh { path := "/static/app.js", query := [] }
        = some w1 ∧
      w1.finish.status = 200 ∧
      w1.finish.header.get "Content-Type" = some "application/javascript" ∧
      w1.finish.body = [Chunk.bytes (asciiBytes "void 0;")] :=
  ⟨_, rfl, rfl, by decide, rfl⟩

/-- The root path is served from the embedded index page as HTML. -/
theorem serve_root (env : Env) (rangeOrder : List (String × List String))
    (query : List (String × String)) (σ : World) (content : Bytes)
    (h : env.staticFiles "static/index.html" = some content) :
    serve env rangeOrder { path := "/", query := query } σ =
      (Served.response
        { status := 200,
          header := [("Content-Type", "text/html; charset=utf-8")],
          body := [Chunk.bytes content] }, σ) := by
  have hr : route "/" = Route.serveHome := by decide
  simp only [serve, hr, serveHome, h]
  rfl

end WeatherApp
